import Mathlib

/-!
Verification of the piNetMon detection-and-dispatch core against its
specification.  The definitions below are shallow embeddings of the Python
sources:

* `src/sensor_collector.py` — the snapshot data model (`collect_all_data`
  omits a whole sub-group when the corresponding sensor is disabled, and
  omits single fields such as `temperature` when the probe is unavailable);
* `src/ai_models.py` — `SimpleThresholdDetector.detect`,
  `AnomalyDetector.extract_features` / `predict` / `train`,
  `train_and_save_models`;
* `src/local_ai_model.py` — `AnomalyDetector.train` (the 10-sample guard),
  `SimpleThresholdDetector.detect` (the variant that checks cpu temperature
  against both bounds) and `SimpleThresholdDetector.update_thresholds`;
* `src/cloud_integration.py` — `CloudDataManager.upload_sensor_data` and
  `CloudDataManager._flush_queue`;
* `src/main.py` — `PiNetworkMonitor.collect_and_process`.

Python numbers are modelled as rationals, absent dictionary keys as
`Option`, and a raised `KeyError` / `NotFittedError` as the `Except.error`
branch of an `Except String` result.
-/

set_option autoImplicit false

/-! ## Data model: snapshots (sensor_collector.collect_all_data) -/

/-- The `cpu` sub-group of a snapshot.  `temperature` is absent when the
temperature sensor is disabled; `usage_percent` when the cpu sensor is. -/
structure CpuGroup where
  temperature : Option ℚ
  usage_percent : Option ℚ
deriving Repr, DecidableEq

/-- The `memory` sub-group of a snapshot. -/
structure MemoryGroup where
  percent : Option ℚ
deriving Repr, DecidableEq

/-- The `disk` sub-group of a snapshot. -/
structure DiskGroup where
  percent : Option ℚ
deriving Repr, DecidableEq

/-- The `network` sub-group of a snapshot. -/
structure NetworkGroup where
  bytes_sent_mb : Option ℚ
  bytes_recv_mb : Option ℚ
deriving Repr, DecidableEq

/-- One sensor snapshot: every sub-group may be entirely absent, since
`collect_all_data` only inserts the key of an enabled sensor. -/
structure Snapshot where
  cpu : Option CpuGroup
  memory : Option MemoryGroup
  disk : Option DiskGroup
  network : Option NetworkGroup
deriving Repr, DecidableEq

/-! ## Threshold maps (Python dicts metric-name to bound dict) -/

/-- One bound dictionary value; either key (`min` / `max`) may be absent,
exactly as a Python dict entry may lack either key. -/
structure Bound where
  min : Option ℚ
  max : Option ℚ
deriving Repr, DecidableEq

/-- A Python dict from metric name to bound, as an association list in
insertion order. -/
abbrev ThresholdMap := List (String × Bound)

/-- Python subscription `data[key]` on an optional value: raises `KeyError`
when the key is absent. -/
def getGroup {α : Type} (key : String) : Option α → Except String α
  | some g => Except.ok g
  | none => Except.error ("KeyError: " ++ key)

/-- Python subscription `thresholds[metric]`: raises `KeyError` when the
metric has no entry. -/
def lookupBound (thresholds : ThresholdMap) (metric : String) : Except String Bound :=
  match thresholds.lookup metric with
  | some b => Except.ok b
  | none => Except.error ("KeyError: " ++ metric)

/-- Python subscription `bound['max']`. -/
def maxOf (b : Bound) (metric : String) : Except String ℚ :=
  match b.max with
  | some m => Except.ok m
  | none => Except.error ("KeyError: max of " ++ metric)

/-- Python subscription `bound['min']`. -/
def minOf (b : Bound) (metric : String) : Except String ℚ :=
  match b.min with
  | some m => Except.ok m
  | none => Except.error ("KeyError: min of " ++ metric)

namespace AiModels

/-- The default thresholds set in `SimpleThresholdDetector.__init__`
(src/ai_models.py lines 423-428). -/
def default_thresholds : ThresholdMap :=
  [("cpu_temperature", { min := some 0, max := some 85 }),
   ("cpu_usage_percent", { min := some 0, max := some 95 }),
   ("memory_percent", { min := some 0, max := some 90 }),
   ("disk_percent", { min := some 0, max := some 95 })]

/-- `SimpleThresholdDetector.detect` (src/ai_models.py lines 431-455).
Each of the four hard-coded metrics is read with `data[group].get(field, 0)`
— the group subscription raises `KeyError` when the group is absent, the
field defaults to 0 — and compared only against the `max` entry of the
bound dict.  The `min` entries are never read. -/
def detect (thresholds : ThresholdMap) (data : Snapshot) :
    Except String (Bool × List String) := do
  let cpu ← getGroup "cpu" data.cpu
  let cpu_temp := cpu.temperature.getD 0
  let b1 ← lookupBound thresholds "cpu_temperature"
  let t1 ← maxOf b1 "cpu_temperature"
  let v1 : List String :=
    if cpu_temp > t1 then ["CPU temperature: " ++ toString cpu_temp] else []
  let cpu_usage := cpu.usage_percent.getD 0
  let b2 ← lookupBound thresholds "cpu_usage_percent"
  let t2 ← maxOf b2 "cpu_usage_percent"
  let v2 : List String :=
    if cpu_usage > t2 then ["CPU usage: " ++ toString cpu_usage] else []
  let memory ← getGroup "memory" data.memory
  let memory_pct := memory.percent.getD 0
  let b3 ← lookupBound thresholds "memory_percent"
  let t3 ← maxOf b3 "memory_percent"
  let v3 : List String :=
    if memory_pct > t3 then ["Memory: " ++ toString memory_pct] else []
  let disk ← getGroup "disk" data.disk
  let disk_pct := disk.percent.getD 0
  let b4 ← lookupBound thresholds "disk_percent"
  let t4 ← maxOf b4 "disk_percent"
  let v4 : List String :=
    if disk_pct > t4 then ["Disk: " ++ toString disk_pct] else []
  let violations := v1 ++ v2 ++ v3 ++ v4
  return (decide (0 < violations.length), violations)

end AiModels

namespace LocalAiModel

/-- The default thresholds set in `SimpleThresholdDetector.__init__`
(src/local_ai_model.py lines 181-186); identical to the ai_models copy. -/
def default_thresholds : ThresholdMap := AiModels.default_thresholds

/-- Python `dict.update`: entries whose key occurs in `updates` are replaced
wholesale (keeping their position), entries whose key does not occur are
kept, and keys of `updates` that are new are appended in order. -/
def dictUpdate (d updates : ThresholdMap) : ThresholdMap :=
  (d.map fun kv =>
    match updates.lookup kv.1 with
    | some v => (kv.1, v)
    | none => kv) ++
  updates.filter fun kv => (d.lookup kv.1).isNone

/-- `SimpleThresholdDetector.update_thresholds` (src/local_ai_model.py lines
230-238): a single shallow `self.thresholds.update(new_thresholds)`. -/
def update_thresholds (thresholds new_thresholds : ThresholdMap) : ThresholdMap :=
  dictUpdate thresholds new_thresholds

/-- `SimpleThresholdDetector.detect` (src/local_ai_model.py lines 189-228).
Unlike the ai_models copy, cpu temperature is read with a bare
`data['cpu'].get('temperature')`: when it is absent (or stored as `None`)
the whole temperature check is skipped, and when present the value is
compared against both the `min` and the `max` entry, short-circuit — the
`max` subscription happens only when the value is not below `min`.  The
other three metrics default to 0 and are compared only against `max`,
exactly as in the ai_models copy. -/
def detect (thresholds : ThresholdMap) (data : Snapshot) :
    Except String (Bool × List String) := do
  let cpu ← getGroup "cpu" data.cpu
  let v1 : List String ← match cpu.temperature with
    | none => pure []
    | some cpu_temp => do
      let b1 ← lookupBound thresholds "cpu_temperature"
      let t1min ← minOf b1 "cpu_temperature"
      if cpu_temp < t1min then
        pure ["CPU temperature: " ++ toString cpu_temp]
      else do
        let b1' ← lookupBound thresholds "cpu_temperature"
        let t1max ← maxOf b1' "cpu_temperature"
        pure (if cpu_temp > t1max
          then ["CPU temperature: " ++ toString cpu_temp] else [])
  let cpu_usage := cpu.usage_percent.getD 0
  let b2 ← lookupBound thresholds "cpu_usage_percent"
  let t2 ← maxOf b2 "cpu_usage_percent"
  let v2 : List String :=
    if cpu_usage > t2 then ["CPU usage: " ++ toString cpu_usage] else []
  let memory ← getGroup "memory" data.memory
  let memory_usage := memory.percent.getD 0
  let b3 ← lookupBound thresholds "memory_percent"
  let t3 ← maxOf b3 "memory_percent"
  let v3 : List String :=
    if memory_usage > t3 then ["Memory usage: " ++ toString memory_usage] else []
  let disk ← getGroup "disk" data.disk
  let disk_usage := disk.percent.getD 0
  let b4 ← lookupBound thresholds "disk_percent"
  let t4 ← maxOf b4 "disk_percent"
  let v4 : List String :=
    if disk_usage > t4 then ["Disk usage: " ++ toString disk_usage] else []
  let violations := v1 ++ v2 ++ v3 ++ v4
  return (decide (0 < violations.length), violations)

end LocalAiModel

/-! ## Spec-side threshold semantics (for claim C1)

Modelled from the spec, for comparison with the code: "For every metric
present in both the snapshot and the threshold set, flag a violation if the
metric value exceeds its `max` (when defined) or is below its `min` (when
defined). `is_anomaly` is the disjunction of all per-metric checks ...
missing metrics are simply skipped, not treated as violations." -/

/-- The snapshot value carried by each threshold-set metric name, following
the feature-name glossary of the source (`feature_names` in ai_models.py);
`none` when the metric is absent from the snapshot. -/
def snapshotValue (data : Snapshot) : String → Option ℚ
  | "cpu_temperature" => data.cpu.bind CpuGroup.temperature
  | "cpu_usage_percent" => data.cpu.bind CpuGroup.usage_percent
  | "memory_percent" => data.memory.bind MemoryGroup.percent
  | "disk_percent" => data.disk.bind DiskGroup.percent
  | _ => none

/-- Spec-side per-metric check: the value exceeds `max` when defined, or is
below `min` when defined. -/
def specViolates (b : Bound) (v : ℚ) : Bool :=
  (match b.max with
   | some mx => decide (v > mx)
   | none => false) ||
  (match b.min with
   | some mn => decide (v < mn)
   | none => false)

/-- Spec-side verdict: disjunction of the per-metric checks over the metrics
present in both the snapshot and the threshold set. -/
def spec_is_anomaly (thresholds : ThresholdMap) (data : Snapshot) : Bool :=
  thresholds.any fun kv =>
    match snapshotValue data kv.1 with
    | some v => specViolates kv.2 v
    | none => false

/-! ## Concrete snapshots used in counterexamples and witnesses -/

/-- The normal reading of spec Scenario 1. -/
def S_normal : Snapshot :=
  { cpu := some { temperature := some 45, usage_percent := some 30 },
    memory := some { percent := some 50 },
    disk := some { percent := some 60 },
    network := some { bytes_sent_mb := some 100, bytes_recv_mb := some 200 } }

/-- A reading whose memory usage sits below a configured `min` bound while
every `max` bound is respected. -/
def S_lowmem : Snapshot :=
  { cpu := some { temperature := some 45, usage_percent := some 30 },
    memory := some { percent := some 5 },
    disk := some { percent := some 60 },
    network := some { bytes_sent_mb := some 100, bytes_recv_mb := some 200 } }

/-- A hot reading: cpu temperature 90 against the default max of 85. -/
def S_hot : Snapshot :=
  { cpu := some { temperature := some 90, usage_percent := some 30 },
    memory := some { percent := some 50 },
    disk := some { percent := some 60 },
    network := some { bytes_sent_mb := some 100, bytes_recv_mb := some 200 } }

/-- The snapshot produced by `collect_all_data` when the memory sensor is
disabled: the `memory` key is simply not inserted. -/
def S_noMemory : Snapshot :=
  { cpu := some { temperature := some 45, usage_percent := some 30 },
    memory := none,
    disk := some { percent := some 60 },
    network := some { bytes_sent_mb := some 100, bytes_recv_mb := some 200 } }

/-- The default thresholds with a raised memory `min` bound of 10, as a
remote configuration patch may install. -/
def T_memfloor : ThresholdMap :=
  [("cpu_temperature", { min := some 0, max := some 85 }),
   ("cpu_usage_percent", { min := some 0, max := some 95 }),
   ("memory_percent", { min := some 10, max := some 90 }),
   ("disk_percent", { min := some 0, max := some 95 })]

/-! ## ML anomaly detector (ai_models.AnomalyDetector)

The sklearn and onnxruntime collaborators are modelled abstractly: a
scaler / model object carries a `fitted` flag (calling `transform`,
`predict` or `score_samples` on an unfitted object raises
`NotFittedError`, exactly as sklearn `check_is_fitted` does) and an
opaque function giving its numeric behaviour once fitted.  An ONNX
inference session is an opaque function that may raise. -/

/-- A `StandardScaler` object: unfitted after `StandardScaler()`, fitted
after `fit`. -/
structure SkScaler where
  fitted : Bool
  transform : List ℚ → List ℚ

/-- An `IsolationForest` object: `predictLabel` is the label returned by
`predict` (sklearn emits -1 or 1), `score_samples` the inlier likelihood. -/
structure SkModel where
  fitted : Bool
  predictLabel : List ℚ → Int
  score_samples : List ℚ → ℚ

/-- An ONNX scaler inference session (`self.onnx_scaler.run`). -/
structure OnnxScalerSession where
  run : List ℚ → Except String (List ℚ)

/-- An ONNX model inference session (`self.onnx_model.run`): yields the
label `outputs[0][0]` and the raw score `outputs[1][0][0]`. -/
structure OnnxModelSession where
  run : List ℚ → Except String (Int × ℚ)

/-- The mutable attributes of `ai_models.AnomalyDetector` that `predict`,
`train` and `save_model` read (src/ai_models.py lines 205-241). -/
structure DetectorState where
  use_onnx : Bool
  onnx_model : Option OnnxModelSession
  onnx_scaler : Option OnnxScalerSession
  model : Option SkModel
  scaler : Option SkScaler

namespace AiModels

/-- `AnomalyDetector.extract_features` (src/ai_models.py lines 253-263):
the fixed 6-vector, each field read with `data[group].get(field, 0.0)` —
the group subscription raises `KeyError` when the group is absent, a
missing field defaults to 0. -/
def extract_features (data : Snapshot) : Except String (List ℚ) := do
  let cpu ← getGroup "cpu" data.cpu
  let memory ← getGroup "memory" data.memory
  let disk ← getGroup "disk" data.disk
  let network ← getGroup "network" data.network
  return [cpu.temperature.getD 0, cpu.usage_percent.getD 0,
          memory.percent.getD 0, disk.percent.getD 0,
          network.bytes_sent_mb.getD 0, network.bytes_recv_mb.getD 0]

/-- The sklearn branch of `AnomalyDetector.predict` (src/ai_models.py lines
327-341): return `(False, 0.0)` when `model is None or scaler is None`;
otherwise `scaler.transform` (raises `NotFittedError` on an unfitted
scaler), `model.predict` (likewise), and the label sentinel `== -1`. -/
def sklearn_predict (st : DetectorState) (features : List ℚ) :
    Except String (Bool × ℚ) :=
  match st.model, st.scaler with
  | some m, some sc =>
    if sc.fitted = false then Except.error "NotFittedError"
    else
      let fs := sc.transform features
      if m.fitted = false then Except.error "NotFittedError"
      else Except.ok (decide (m.predictLabel fs = -1), - m.score_samples fs)
  | _, _ => Except.ok (false, 0)

/-- The ONNX branch of `AnomalyDetector.predict` (src/ai_models.py lines
303-321): scale, run the model, and normalise the label with
`prediction == -1 or prediction == 1`. -/
def onnx_predict (sm : OnnxModelSession) (ss : OnnxScalerSession)
    (features : List ℚ) : Except String (Bool × ℚ) := do
  let fs ← ss.run features
  let out ← sm.run fs
  return (decide (out.1 = -1) || decide (out.1 = 1), - out.2)

/-- `AnomalyDetector.predict` (src/ai_models.py lines 297-341): extract
features, take the ONNX branch when `use_onnx` holds and both sessions are
loaded, fall back to the sklearn branch when the ONNX branch raises (the
exception is caught and `use_onnx` cleared), and otherwise take the sklearn
branch directly. -/
def predict (st : DetectorState) (data : Snapshot) : Except String (Bool × ℚ) := do
  let features ← extract_features data
  match st.use_onnx, st.onnx_model, st.onnx_scaler with
  | true, some sm, some ss =>
    match onnx_predict sm ss features with
    | Except.ok r => Except.ok r
    | Except.error _ => sklearn_predict st features
  | _, _, _ => sklearn_predict st features

/-- `AnomalyDetector.train` (src/ai_models.py lines 265-295): only an empty
list is rejected (`if not training_data:`); any non-empty list is feature
extracted (raising on a malformed sample), the scaler and model are fitted
(`self.scaler.fit` raises `AttributeError` when the attribute is `None`),
and `save_model` is attempted, its exceptions swallowed.  The returned
flag records whether the pickle file was written. -/
def train (st : DetectorState) (training_data : List Snapshot) :
    Except String (DetectorState × Bool) := do
  if training_data.isEmpty then
    return (st, false)
  let _ ← training_data.mapM extract_features
  match st.scaler, st.model with
  | some sc, some m =>
    return ({ st with scaler := some { sc with fitted := true },
                       model := some { m with fitted := true } }, true)
  | _, _ => Except.error "AttributeError: fit called on None"

end AiModels

/-- The projection of a train result recorded by the C7 analysis: the
fitted flag of the resulting scaler and whether the model was persisted;
`none` when train raised. -/
def trainOutcome (r : Except String (DetectorState × Bool)) : Option (Bool × Bool) :=
  match r with
  | Except.ok (st, saved) => some ((st.scaler.map SkScaler.fitted).getD false, saved)
  | Except.error _ => none

namespace LocalAiModel

/-- The attributes of `local_ai_model.AnomalyDetector`: `__init__` always
assigns both objects (loaded or freshly constructed). -/
structure State where
  model : SkModel
  scaler : SkScaler

/-- `AnomalyDetector.train` (src/local_ai_model.py lines 82-110): lists of
fewer than 10 samples are rejected up front with a warning, before any
feature extraction; otherwise fit and persist.  The returned flag records
whether the pickle file was written. -/
def train (st : State) (training_data : List Snapshot) :
    Except String (State × Bool) :=
  if training_data.length < 10 then Except.ok (st, false)
  else do
    let _ ← training_data.mapM AiModels.extract_features
    return ({ model := { st.model with fitted := true },
              scaler := { st.scaler with fitted := true } }, true)

end LocalAiModel

/-! ## Persistence order of train_and_save_models (ai_models.py 105-196) -/

/-- One artifact write performed by `train_and_save_models`. -/
inductive PersistEvent where
  | pickleModel
  | pickleScaler
  | onnxScaler
  | onnxModel
deriving Repr, DecidableEq

/-- The writes performed inside the `try` block of the ONNX export
(src/ai_models.py lines 156-186), by failure point: `none` means the block
runs to completion; `some 0` a raise in the scaler conversion, before any
ONNX write; `some 1` a raise in the model conversion, after the scaler
write; `some k` for larger `k` a raise in the size bookkeeping after both
writes.  Every raise is caught by the `except` clause. -/
def onnx_export_writes : Option Nat → List PersistEvent
  | none => [PersistEvent.onnxScaler, PersistEvent.onnxModel]
  | some 0 => []
  | some 1 => [PersistEvent.onnxScaler]
  | some _ => [PersistEvent.onnxScaler, PersistEvent.onnxModel]

/-- The sequence of artifact writes of `train_and_save_models`
(src/ai_models.py lines 137-187): the pickle files are written first,
unconditionally ("backward compatibility"), and only then is the ONNX
export attempted. -/
def train_and_save_models (onnx_fail : Option Nat) : List PersistEvent :=
  [PersistEvent.pickleModel, PersistEvent.pickleScaler] ++ onnx_export_writes onnx_fail

/-! ## Dispatch queue (cloud_integration.CloudDataManager)

`is_connected` is owned by the transport and can change only at the
cooperative suspension points (`await` boundaries), that is between flush
iterations; inside one iteration the loop condition and the send read the
same value.  It is therefore modelled as one boolean reading per flush
iteration, and `send i` as whether the transport accepted the i-th send. -/

/-- `self.max_queue_size` (src/cloud_integration.py line 240). -/
def max_queue_size : Nat := 100

/-- `CloudDataManager._flush_queue` (src/cloud_integration.py lines
272-281): while the queue is non-empty and `is_connected` holds, pop the
head, send it (the send result is discarded), and pace with
`asyncio.sleep(0.1)`.  Returns the list of popped payloads paired with
their send outcome, the remaining queue, and the number of pacing sleeps
performed. -/
def flush_queue {α : Type} (conn send : Nat → Bool) :
    Nat → List α → List (α × Bool) × List α × Nat
  | _, [] => ([], [], 0)
  | i, d :: rest =>
    if conn i then
      let r := flush_queue conn send (i + 1) rest
      ((d, send i) :: r.1, r.2.1, r.2.2 + 1)
    else ([], d :: rest, 0)

/-- `CloudDataManager.upload_sensor_data` (src/cloud_integration.py lines
243-270): when disconnected, enqueue if below capacity, otherwise drop;
both return `False`.  When connected, send immediately (`send_ok` is the
transport outcome of that send) and, on success with a non-empty queue,
drain via `_flush_queue`.  Returns the new queue, the flushed payloads
with their outcomes, and the boolean result of the call. -/
def upload_sensor_data {α : Type} (is_connected send_ok : Bool)
    (flush_conn flush_send : Nat → Bool) (queue : List α) (data : α) :
    List α × List (α × Bool) × Bool :=
  if is_connected = false then
    if queue.length < max_queue_size then (queue ++ [data], [], false)
    else (queue, [], false)
  else
    if send_ok && !queue.isEmpty then
      let r := flush_queue flush_conn flush_send 0 queue
      (r.2.1, r.1, send_ok)
    else (queue, [], send_ok)

/-- The environment of one `upload_sensor_data` call. -/
structure UploadCall (α : Type) where
  is_connected : Bool
  send_ok : Bool
  flush_conn : Nat → Bool
  flush_send : Nat → Bool
  data : α

/-- The queue after one `upload_sensor_data` call. -/
def apply_upload {α : Type} (queue : List α) (c : UploadCall α) : List α :=
  (upload_sensor_data c.is_connected c.send_ok c.flush_conn c.flush_send
    queue c.data).1

/-- The queue after a sequence of `upload_sensor_data` calls. -/
def run_uploads {α : Type} (queue : List α) (calls : List (UploadCall α)) : List α :=
  calls.foldl apply_upload queue

/-- The number of leading flush iterations for which the connectivity
reading holds, bounded by the queue length: the point at which
`_flush_queue` stops. -/
def conn_prefix_len {α : Type} (conn : Nat → Bool) : Nat → List α → Nat
  | _, [] => 0
  | i, _ :: rest => if conn i then conn_prefix_len conn (i + 1) rest + 1 else 0

/-! ## Orchestrator cycle (main.PiNetworkMonitor.collect_and_process) -/

/-- The payload block `local_analysis` built at src/main.py lines 434-438. -/
structure LocalAnalysis where
  is_anomaly : Bool
  ml_score : ℚ
  threshold_violations : List String
deriving Repr, DecidableEq

/-- The remote verdict produced by `CloudAIService.analyze_sensor_data`,
abstracted to the fields the orchestrator forwards. -/
structure CloudAnalysis where
  available : Bool
  is_anomaly : Bool
deriving Repr, DecidableEq

/-- The outbound payload assembled at src/main.py lines 432-441: the
analysis blocks added on top of the raw snapshot fields. -/
structure UploadData where
  local_analysis : LocalAnalysis
  cloud_analysis : Option CloudAnalysis
deriving Repr, DecidableEq

/-- The environment of one `collect_and_process` cycle: the outcomes of the
collaborator calls the stage logic branches on. -/
structure CycleEnv where
  threshold_result : Bool × List String
  local_ai_enabled : Bool
  first_predict : Except String (Bool × ℚ)
  recent_rows : Option Nat
  train_ok : Bool
  second_predict : Except String (Bool × ℚ)
  cloud_ai_enabled : Bool
  cloud_service_present : Bool
  cloud_analysis : CloudAnalysis
  cloud_manager_present : Bool
  upload_success : Bool

/-- The ML verdict of one cycle (src/main.py lines 390-408): skip when
local AI is disabled; use the first `predict` when it returns; on an
exception, retrain only when the 24h window holds at least 10 rows, and
keep the `(False, 0.0)` default when the window is too small, the retrain
raises, or the second `predict` raises. -/
def ml_verdict (env : CycleEnv) : Bool × ℚ :=
  if env.local_ai_enabled then
    match env.first_predict with
    | Except.ok r => r
    | Except.error _ =>
      if (match env.recent_rows with
          | some n => decide (10 ≤ n)
          | none => false) then
        if env.train_ok then
          match env.second_predict with
          | Except.ok r => r
          | Except.error _ => (false, 0)
        else (false, 0)
      else (false, 0)
  else (false, 0)

/-- The observable outcome of one cycle. -/
structure CycleResult where
  is_anomaly : Bool
  anomalies_detected_delta : Nat
  stored_is_anomaly : Bool
  stored_score : ℚ
  upload : Option UploadData
  cloud_uploads_delta : Nat
  failed_uploads_delta : Nat

/-- `PiNetworkMonitor.collect_and_process` (src/main.py lines 380-465),
from the detector verdicts on: the combined flag is the disjunction
computed at line 410, drives the anomaly counter, the QuestDB record and
the payload `local_analysis` block; the cloud analysis is computed
separately (lines 423-428) and only merged into the payload (lines
440-441). -/
def collect_and_process (env : CycleEnv) : CycleResult :=
  let is_threshold_anomaly := env.threshold_result.1
  let violations := env.threshold_result.2
  let ml := ml_verdict env
  let is_anomaly := is_threshold_anomaly || ml.1
  let cloud :=
    if env.cloud_ai_enabled && env.cloud_service_present then
      some env.cloud_analysis
    else none
  { is_anomaly := is_anomaly,
    anomalies_detected_delta := if is_anomaly then 1 else 0,
    stored_is_anomaly := is_anomaly,
    stored_score := ml.2,
    upload :=
      if env.cloud_manager_present then
        some { local_analysis :=
                 { is_anomaly := is_anomaly, ml_score := ml.2,
                   threshold_violations := violations },
               cloud_analysis := cloud }
      else none,
    cloud_uploads_delta :=
      if env.cloud_manager_present && env.upload_success then 1 else 0,
    failed_uploads_delta :=
      if env.cloud_manager_present && !env.upload_success then 1 else 0 }

/-! ## Concrete detector states and cycle environments -/

/-- The detector state after `AnomalyDetector.__init__` when no artifact
exists on disk: `use_onnx` is still `True` but no ONNX session loaded, and
`_initialize_model` has assigned a fresh (hence unfitted) model and scaler
(src/ai_models.py lines 221-241, 243-251). -/
def untrained_init : DetectorState :=
  { use_onnx := true, onnx_model := none, onnx_scaler := none,
    model := some { fitted := false, predictLabel := fun _ => 1,
                    score_samples := fun _ => 0 },
    scaler := some { fitted := false, transform := fun f => f } }

/-- A detector state in which neither sklearn object exists, as after a
successful ONNX load (the pickle fallback block is skipped) followed by
clearing of the sessions. -/
def no_sklearn_state : DetectorState :=
  { use_onnx := false, onnx_model := none, onnx_scaler := none,
    model := none, scaler := none }

/-- A fresh `local_ai_model.AnomalyDetector` state. -/
def local_fresh : LocalAiModel.State :=
  { model := { fitted := false, predictLabel := fun _ => 1,
               score_samples := fun _ => 0 },
    scaler := { fitted := false, transform := fun f => f } }

/-- Five copies of the normal reading: a training list below the documented
minimum of 10. -/
def five_samples : List Snapshot := List.replicate 5 S_normal

/-- An ONNX model session that always answers label 1 with raw score 5. -/
def onnx_const_model : OnnxModelSession :=
  { run := fun _ => Except.ok (1, 5) }

/-- An ONNX scaler session that scales identically. -/
def onnx_id_scaler : OnnxScalerSession :=
  { run := fun f => Except.ok f }

/-- A detector state with both ONNX sessions loaded and no sklearn
objects (the load order of `__init__` when both .onnx files exist). -/
def onnx_state : DetectorState :=
  { use_onnx := true, onnx_model := some onnx_const_model,
    onnx_scaler := some onnx_id_scaler, model := none, scaler := none }

/-- A cycle environment: threshold verdict positive, ML verdict negative,
remote analysis configured and answering, transport connected. -/
def env0 : CycleEnv :=
  { threshold_result := (true, ["CPU temperature: 90"]),
    local_ai_enabled := true,
    first_predict := Except.ok (false, 2),
    recent_rows := none,
    train_ok := false,
    second_predict := Except.error "NotFittedError",
    cloud_ai_enabled := true,
    cloud_service_present := true,
    cloud_analysis := { available := true, is_anomaly := false },
    cloud_manager_present := true,
    upload_success := true }

/-- A connectivity or transport oracle that always holds. -/
def allOn : Nat → Bool := fun _ => true

/-! ## Helper lemmas -/

/-- Characterization of `AiModels.detect` when the three read groups are
present and the four threshold entries carry a `max` bound: the verdict is
the disjunction of the four max-exceedance checks, and the violation list
their concatenation. -/
theorem detect_spec (th : ThresholdMap) (data : Snapshot)
    (c : CpuGroup) (me : MemoryGroup) (dk : DiskGroup)
    (b1 b2 b3 b4 : Bound) (t1 t2 t3 t4 : ℚ)
    (hc : data.cpu = some c) (hm : data.memory = some me) (hd : data.disk = some dk)
    (l1 : th.lookup "cpu_temperature" = some b1) (x1 : b1.max = some t1)
    (l2 : th.lookup "cpu_usage_percent" = some b2) (x2 : b2.max = some t2)
    (l3 : th.lookup "memory_percent" = some b3) (x3 : b3.max = some t3)
    (l4 : th.lookup "disk_percent" = some b4) (x4 : b4.max = some t4) :
    AiModels.detect th data = Except.ok
      (decide (c.temperature.getD 0 > t1) || decide (c.usage_percent.getD 0 > t2)
        || decide (me.percent.getD 0 > t3) || decide (dk.percent.getD 0 > t4),
       (if c.temperature.getD 0 > t1
          then ["CPU temperature: " ++ toString (c.temperature.getD 0)] else [])
       ++ (if c.usage_percent.getD 0 > t2
          then ["CPU usage: " ++ toString (c.usage_percent.getD 0)] else [])
       ++ (if me.percent.getD 0 > t3
          then ["Memory: " ++ toString (me.percent.getD 0)] else [])
       ++ (if dk.percent.getD 0 > t4
          then ["Disk: " ++ toString (dk.percent.getD 0)] else [])) := by
  unfold AiModels.detect lookupBound maxOf
  simp only [hc, hm, hd, l1, l2, l3, l4, x1, x2, x3, x4, getGroup, bind,
    Except.bind, pure, Except.pure]
  by_cases h1 : c.temperature.getD 0 > t1 <;>
    by_cases h2 : c.usage_percent.getD 0 > t2 <;>
      by_cases h3 : me.percent.getD 0 > t3 <;>
        by_cases h4 : dk.percent.getD 0 > t4 <;>
          simp [h1, h2, h3, h4]

/-- Characterization of `LocalAiModel.detect` when the three read groups
are present, the `cpu_temperature` entry carries both bounds and the other
three entries carry a `max` bound: the temperature check is skipped when
the field is absent and otherwise compares against both bounds; the other
three metrics default to 0 and are compared only against `max`. -/
theorem detectL_spec (th : ThresholdMap) (data : Snapshot)
    (c : CpuGroup) (me : MemoryGroup) (dk : DiskGroup)
    (b1 b2 b3 b4 : Bound) (m1 t1 t2 t3 t4 : ℚ)
    (hc : data.cpu = some c) (hm : data.memory = some me) (hd : data.disk = some dk)
    (l1 : th.lookup "cpu_temperature" = some b1) (n1 : b1.min = some m1)
    (x1 : b1.max = some t1)
    (l2 : th.lookup "cpu_usage_percent" = some b2) (x2 : b2.max = some t2)
    (l3 : th.lookup "memory_percent" = some b3) (x3 : b3.max = some t3)
    (l4 : th.lookup "disk_percent" = some b4) (x4 : b4.max = some t4) :
    LocalAiModel.detect th data = Except.ok
      ((match c.temperature with
        | some t => decide (t < m1 ∨ t > t1)
        | none => false)
        || decide (c.usage_percent.getD 0 > t2)
        || decide (me.percent.getD 0 > t3)
        || decide (dk.percent.getD 0 > t4),
       (match c.temperature with
        | some t =>
          if t < m1 ∨ t > t1 then ["CPU temperature: " ++ toString t] else []
        | none => [])
       ++ (if c.usage_percent.getD 0 > t2
          then ["CPU usage: " ++ toString (c.usage_percent.getD 0)] else [])
       ++ (if me.percent.getD 0 > t3
          then ["Memory usage: " ++ toString (me.percent.getD 0)] else [])
       ++ (if dk.percent.getD 0 > t4
          then ["Disk usage: " ++ toString (dk.percent.getD 0)] else [])) := by
  unfold LocalAiModel.detect lookupBound maxOf minOf
  simp only [hc, hm, hd, l1, l2, l3, l4, n1, x1, x2, x3, x4, getGroup, bind,
    Except.bind, pure, Except.pure]
  cases ht : c.temperature with
  | none =>
    by_cases h2 : c.usage_percent.getD 0 > t2 <;>
      by_cases h3 : me.percent.getD 0 > t3 <;>
        by_cases h4 : dk.percent.getD 0 > t4 <;>
          simp [h2, h3, h4, bind, Except.bind, pure, Except.pure]
  | some t =>
    by_cases h1a : t < m1 <;>
      by_cases h1b : t > t1 <;>
        by_cases h2 : c.usage_percent.getD 0 > t2 <;>
          by_cases h3 : me.percent.getD 0 > t3 <;>
            by_cases h4 : dk.percent.getD 0 > t4 <;>
              simp [h1a, h1b, h2, h3, h4, bind, Except.bind, pure, Except.pure]

/-- `List.lookup` distributes over append: the left list wins. -/
theorem lookup_append (l₁ l₂ : ThresholdMap) (k : String) :
    (l₁ ++ l₂).lookup k =
      (match l₁.lookup k with
       | some v => some v
       | none => l₂.lookup k) := by
  induction l₁ with
  | nil => simp [List.lookup]
  | cons kv rest ih =>
    obtain ⟨k1, v1⟩ := kv
    cases h : (k == k1) <;> simp [List.lookup, h, ih]

/-- Looking up the mapped half of `dictUpdate`: the value of `k` in `d`,
replaced by the value of `k` in `updates` when one exists. -/
theorem lookup_dictUpdate_map (d updates : ThresholdMap) (k : String) :
    ((d.map fun kv =>
        match updates.lookup kv.1 with
        | some v => (kv.1, v)
        | none => kv).lookup k)
      = (d.lookup k).map fun v =>
          match updates.lookup k with
          | some w => w
          | none => v := by
  induction d with
  | nil => simp [List.lookup]
  | cons kv rest ih =>
    obtain ⟨k1, v1⟩ := kv
    cases hb : (k == k1) with
    | false => cases hm : updates.lookup k1 <;> simp [List.lookup, hb, hm, ih]
    | true =>
      have hk : k = k1 := eq_of_beq hb
      subst hk
      cases hm : updates.lookup k <;> simp [List.lookup, hm]

/-- A key absent from a list is absent from any filtering of it. -/
theorem lookup_filter_none (updates : ThresholdMap) (p : String × Bound → Bool)
    (k : String) (h : updates.lookup k = none) :
    (updates.filter p).lookup k = none := by
  induction updates with
  | nil => simp [List.lookup]
  | cons kv rest ih =>
    obtain ⟨k1, v1⟩ := kv
    cases hb : (k == k1) with
    | false =>
      simp only [List.lookup, hb] at h
      cases hp : p (k1, v1) <;> simp [List.filter, hp, List.lookup, hb, ih h]
    | true => simp [List.lookup, hb] at h

/-- Filtering with a predicate that keeps every entry carrying key `k`
preserves the lookup of `k`. -/
theorem lookup_filter_keep (updates : ThresholdMap) (p : String × Bound → Bool)
    (k : String) (hkeep : ∀ v, p (k, v) = true) :
    (updates.filter p).lookup k = updates.lookup k := by
  induction updates with
  | nil => simp
  | cons kv rest ih =>
    obtain ⟨k1, v1⟩ := kv
    cases hb : (k == k1) with
    | false => cases hp : p (k1, v1) <;> simp [List.filter, hp, List.lookup, hb, ih]
    | true =>
      have hk : k = k1 := eq_of_beq hb
      subst hk
      simp [List.filter, hkeep v1, List.lookup]

/-- `_flush_queue` sends exactly the connectivity-prefix of the queue, in
order, leaves the rest queued, and paces once per send, provided the
transport accepts each attempted send. -/
theorem flush_queue_spec {α : Type} (conn send : Nat → Bool) (i : Nat)
    (q : List α) (hsend : ∀ j, send j = true) :
    flush_queue conn send i q =
      ((q.take (conn_prefix_len conn i q)).map (fun p => (p, true)),
       q.drop (conn_prefix_len conn i q),
       conn_prefix_len conn i q) := by
  induction q generalizing i with
  | nil => rfl
  | cons d rest ih =>
    cases h : conn i with
    | true => simp [flush_queue, conn_prefix_len, h, ih (i + 1), hsend i]
    | false => simp [flush_queue, conn_prefix_len, h]

/-- The queue remaining after `_flush_queue` is never longer than the
queue it started from, whatever the send outcomes. -/
theorem flush_queue_remaining_len {α : Type} (conn send : Nat → Bool) (i : Nat)
    (q : List α) : (flush_queue conn send i q).2.1.length ≤ q.length := by
  induction q generalizing i with
  | nil => simp [flush_queue]
  | cons d rest ih =>
    cases h : conn i with
    | true =>
      simp only [flush_queue, h, if_true, List.length_cons]
      exact Nat.le_succ_of_le (ih (i + 1))
    | false => simp [flush_queue, h]

/-- One `upload_sensor_data` call keeps the queue within capacity. -/
theorem apply_upload_length {α : Type} (q : List α) (c : UploadCall α)
    (h : q.length ≤ max_queue_size) :
    (apply_upload q c).length ≤ max_queue_size := by
  unfold apply_upload upload_sensor_data
  dsimp only
  split
  · split
    · simp only [List.length_append, List.length_cons, List.length_nil]
      omega
    · exact h
  · split
    · exact le_trans (flush_queue_remaining_len c.flush_conn c.flush_send 0 q) h
    · exact h

/-- The connectivity prefix never exceeds the queue length. -/
theorem conn_prefix_len_le {α : Type} (conn : Nat → Bool) (i : Nat)
    (q : List α) : conn_prefix_len conn i q ≤ q.length := by
  induction q generalizing i with
  | nil => simp [conn_prefix_len]
  | cons d rest ih =>
    cases h : conn i with
    | true =>
      simp only [conn_prefix_len, h, if_true, List.length_cons]
      exact Nat.succ_le_succ (ih (i + 1))
    | false => simp [conn_prefix_len, h]

/-- Connectivity holds at every iteration inside the prefix. -/
theorem conn_prefix_len_holds {α : Type} (conn : Nat → Bool) (i : Nat)
    (q : List α) (j : Nat) (hj : j < conn_prefix_len conn i q) :
    conn (i + j) = true := by
  induction q generalizing i j with
  | nil => simp [conn_prefix_len] at hj
  | cons d rest ih =>
    cases h : conn i with
    | true =>
      simp only [conn_prefix_len, h, if_true] at hj
      cases j with
      | zero => simpa using h
      | succ j' =>
        have hj' : j' < conn_prefix_len conn (i + 1) rest := by omega
        have := ih (i + 1) j' hj'
        have harith : i + 1 + j' = i + (j' + 1) := by omega
        rwa [harith] at this
    | false => simp [conn_prefix_len, h] at hj

/-- When the flush stops before the queue is empty, connectivity is false
at the stopping iteration. -/
theorem conn_prefix_len_stop {α : Type} (conn : Nat → Bool) (i : Nat)
    (q : List α) (hlt : conn_prefix_len conn i q < q.length) :
    conn (i + conn_prefix_len conn i q) = false := by
  induction q generalizing i with
  | nil => simp [conn_prefix_len] at hlt
  | cons d rest ih =>
    cases h : conn i with
    | true =>
      simp only [conn_prefix_len, h, if_true, List.length_cons] at hlt ⊢
      have hlt' : conn_prefix_len conn (i + 1) rest < rest.length := by omega
      have := ih (i + 1) hlt'
      have harith : i + 1 + conn_prefix_len conn (i + 1) rest
          = i + (conn_prefix_len conn (i + 1) rest + 1) := by omega
      rwa [harith] at this
    | false => simp [conn_prefix_len, h]

/-! ## Claim theorems -/

/-- C1 (counterexample): with the default thresholds patched to a memory
`min` of 10 and a snapshot whose memory usage is 5, the spec-side verdict
(at least one present metric below its defined `min` or above its defined
`max`) is an anomaly, yet both detect variants return `(False, [])` —
neither reads the `min` bound of the memory metric. -/
theorem C1_counterexample :
    spec_is_anomaly T_memfloor S_lowmem = true ∧
    AiModels.detect T_memfloor S_lowmem = Except.ok (false, []) ∧
    LocalAiModel.detect T_memfloor S_lowmem = Except.ok (false, []) := by
  exact ⟨rfl, rfl, rfl⟩

/-- C1 (amended): whenever the cpu, memory and disk groups are present,
the `cpu_temperature` threshold entry carries both bounds and the other
three entries carry a `max` bound: the ai_models variant of `detect`
returns `is_anomaly` equal to the disjunction of the four max-exceedance
checks only, each value defaulting to 0 when its field is absent and no
`min` bound consulted; the local_ai_model variant behaves the same for
cpu usage, memory and disk, but skips the temperature check when the
field is absent and, when it is present, flags the temperature on either
side of its `min`-`max` range.  The `min` bounds of cpu usage, memory and
disk are consulted by neither variant. -/
theorem C1_amended_variants (th : ThresholdMap) (data : Snapshot)
    (c : CpuGroup) (me : MemoryGroup) (dk : DiskGroup)
    (b1 b2 b3 b4 : Bound) (m1 t1 t2 t3 t4 : ℚ)
    (hc : data.cpu = some c) (hm : data.memory = some me) (hd : data.disk = some dk)
    (l1 : th.lookup "cpu_temperature" = some b1) (n1 : b1.min = some m1)
    (x1 : b1.max = some t1)
    (l2 : th.lookup "cpu_usage_percent" = some b2) (x2 : b2.max = some t2)
    (l3 : th.lookup "memory_percent" = some b3) (x3 : b3.max = some t3)
    (l4 : th.lookup "disk_percent" = some b4) (x4 : b4.max = some t4) :
    AiModels.detect th data = Except.ok
      (decide (c.temperature.getD 0 > t1) || decide (c.usage_percent.getD 0 > t2)
        || decide (me.percent.getD 0 > t3) || decide (dk.percent.getD 0 > t4),
       (if c.temperature.getD 0 > t1
          then ["CPU temperature: " ++ toString (c.temperature.getD 0)] else [])
       ++ (if c.usage_percent.getD 0 > t2
          then ["CPU usage: " ++ toString (c.usage_percent.getD 0)] else [])
       ++ (if me.percent.getD 0 > t3
          then ["Memory: " ++ toString (me.percent.getD 0)] else [])
       ++ (if dk.percent.getD 0 > t4
          then ["Disk: " ++ toString (dk.percent.getD 0)] else [])) ∧
    LocalAiModel.detect th data = Except.ok
      ((match c.temperature with
        | some t => decide (t < m1 ∨ t > t1)
        | none => false)
        || decide (c.usage_percent.getD 0 > t2)
        || decide (me.percent.getD 0 > t3)
        || decide (dk.percent.getD 0 > t4),
       (match c.temperature with
        | some t =>
          if t < m1 ∨ t > t1 then ["CPU temperature: " ++ toString t] else []
        | none => [])
       ++ (if c.usage_percent.getD 0 > t2
          then ["CPU usage: " ++ toString (c.usage_percent.getD 0)] else [])
       ++ (if me.percent.getD 0 > t3
          then ["Memory usage: " ++ toString (me.percent.getD 0)] else [])
       ++ (if dk.percent.getD 0 > t4
          then ["Disk usage: " ++ toString (dk.percent.getD 0)] else [])) :=
  ⟨detect_spec th data c me dk b1 b2 b3 b4 t1 t2 t3 t4 hc hm hd
      l1 x1 l2 x2 l3 x3 l4 x4,
   detectL_spec th data c me dk b1 b2 b3 b4 m1 t1 t2 t3 t4 hc hm hd
      l1 n1 x1 l2 x2 l3 x3 l4 x4⟩

/-- C1 (witness): the amended statement evaluated on the hot reading of
spec Scenario 2 against the default thresholds, in both variants. -/
theorem C1_amended_witness :
    AiModels.detect AiModels.default_thresholds S_hot =
      Except.ok (true, ["CPU temperature: " ++ toString (90 : ℚ)]) ∧
    LocalAiModel.detect AiModels.default_thresholds S_hot =
      Except.ok (true, ["CPU temperature: " ++ toString (90 : ℚ)]) := by
  have h := C1_amended_variants AiModels.default_thresholds S_hot
    { temperature := some 90, usage_percent := some 30 }
    { percent := some 50 } { percent := some 60 }
    { min := some 0, max := some 85 } { min := some 0, max := some 95 }
    { min := some 0, max := some 90 } { min := some 0, max := some 95 }
    0 85 95 90 95 rfl rfl rfl rfl rfl rfl rfl rfl rfl rfl rfl rfl
  exact ⟨h.1.trans (by norm_num), h.2.trans (by norm_num)⟩

/-- C3 (counterexample): the snapshot produced with the memory sensor
disabled makes both consumers raise `KeyError` instead of tolerating the
absent group. -/
theorem C3_counterexample :
    AiModels.detect AiModels.default_thresholds S_noMemory
        = Except.error ("KeyError: " ++ "memory") ∧
    AiModels.extract_features S_noMemory = Except.error ("KeyError: " ++ "memory") := by
  exact ⟨rfl, rfl⟩

/-- C3 (amended): when all four sub-groups are present, the consumers do
not raise and every absent field defaults to 0: `extract_features` yields
the fixed 6-vector with `getD 0` defaults and `detect` (default
thresholds) returns a verdict. -/
theorem C3_amended_fields_default (data : Snapshot) (c : CpuGroup)
    (me : MemoryGroup) (dk : DiskGroup) (nw : NetworkGroup)
    (hc : data.cpu = some c) (hm : data.memory = some me)
    (hd : data.disk = some dk) (hn : data.network = some nw) :
    AiModels.extract_features data = Except.ok
        [c.temperature.getD 0, c.usage_percent.getD 0, me.percent.getD 0,
         dk.percent.getD 0, nw.bytes_sent_mb.getD 0, nw.bytes_recv_mb.getD 0] ∧
    ∃ r, AiModels.detect AiModels.default_thresholds data = Except.ok r := by
  constructor
  · unfold AiModels.extract_features
    simp only [hc, hm, hd, hn, getGroup, bind, Except.bind, pure, Except.pure]
  · exact ⟨_, detect_spec AiModels.default_thresholds data c me dk
      _ _ _ _ 85 95 90 95 hc hm hd rfl rfl rfl rfl rfl rfl rfl rfl⟩

/-- C3 (witness): the amended statement evaluated on a snapshot whose
groups are present but whose temperature field is absent. -/
theorem C3_amended_witness :
    AiModels.extract_features
        { cpu := some { temperature := none, usage_percent := some 30 },
          memory := some { percent := some 50 },
          disk := some { percent := some 60 },
          network := some { bytes_sent_mb := some 100, bytes_recv_mb := some 200 } }
      = Except.ok [0, 30, 50, 60, 100, 200] := by
  have h := (C3_amended_fields_default
    { cpu := some { temperature := none, usage_percent := some 30 },
      memory := some { percent := some 50 },
      disk := some { percent := some 60 },
      network := some { bytes_sent_mb := some 100, bytes_recv_mb := some 200 } }
    { temperature := none, usage_percent := some 30 } { percent := some 50 }
    { percent := some 60 } { bytes_sent_mb := some 100, bytes_recv_mb := some 200 }
    rfl rfl rfl rfl).1
  simpa using h

/-- C9 (counterexample): updating with the partial entry
`cpu_temperature: max 70` replaces the whole bound dict — the stored `min`
of 0 is discarded, not preserved as the claim states. -/
theorem C9_counterexample :
    (LocalAiModel.update_thresholds LocalAiModel.default_thresholds
        [("cpu_temperature", { min := none, max := some 70 })]).lookup "cpu_temperature"
      = some { min := none, max := some 70 } ∧
    ¬ ((LocalAiModel.update_thresholds LocalAiModel.default_thresholds
        [("cpu_temperature", { min := none, max := some 70 })]).lookup "cpu_temperature"
      = some { min := some 0, max := some 70 }) := by
  constructor
  · rfl
  · intro h
    simp [LocalAiModel.update_thresholds, LocalAiModel.dictUpdate,
      LocalAiModel.default_thresholds, AiModels.default_thresholds, List.lookup] at h

/-- C9 (amended): `update_thresholds` is a shallow merge: a metric key
absent from the partial map keeps its entry unchanged, while a metric key
present in the partial map has its entire bound dict replaced by the new
one (bound keys missing from the new entry are lost). -/
theorem C9_amended_shallow_merge (d u : ThresholdMap) (k : String) :
    (u.lookup k = none →
      (LocalAiModel.update_thresholds d u).lookup k = d.lookup k) ∧
    (∀ b, u.lookup k = some b →
      (LocalAiModel.update_thresholds d u).lookup k = some b) := by
  constructor
  · intro hu
    unfold LocalAiModel.update_thresholds LocalAiModel.dictUpdate
    rw [lookup_append, lookup_dictUpdate_map, hu]
    cases hd : d.lookup k with
    | some v => simp
    | none =>
      simp only [Option.map_none']
      exact lookup_filter_none u _ k hu
  · intro b hb
    unfold LocalAiModel.update_thresholds LocalAiModel.dictUpdate
    rw [lookup_append, lookup_dictUpdate_map, hb]
    cases hd : d.lookup k with
    | some v => simp
    | none =>
      simp only [Option.map_none']
      rw [lookup_filter_keep u _ k (fun v => by simp [hd]), hb]

/-- C9 (witness): the amended statement evaluated at the default
thresholds and the partial entry of the counterexample: the unmentioned
metric keeps its entry, the mentioned one is replaced wholesale. -/
theorem C9_amended_witness :
    (LocalAiModel.update_thresholds LocalAiModel.default_thresholds
        [("cpu_temperature", { min := none, max := some 70 })]).lookup "memory_percent"
      = LocalAiModel.default_thresholds.lookup "memory_percent" ∧
    (LocalAiModel.update_thresholds LocalAiModel.default_thresholds
        [("disk_percent", { min := some 1, max := some 80 })]).lookup "disk_percent"
      = some { min := some 1, max := some 80 } := by
  exact ⟨(C9_amended_shallow_merge LocalAiModel.default_thresholds
      [("cpu_temperature", { min := none, max := some 70 })] "memory_percent").1 rfl,
    (C9_amended_shallow_merge LocalAiModel.default_thresholds
      [("disk_percent", { min := some 1, max := some 80 })] "disk_percent").2 _ rfl⟩

/-- C2 (counterexample): in the fresh-initialized untrained state (no
artifact on disk: no ONNX session, unfitted sklearn objects assigned by
`_initialize_model`), `predict` on a well-formed snapshot raises
`NotFittedError` from `scaler.transform` instead of returning
`(False, 0.0)`; the orchestrator catches it outside the detector
(src/main.py lines 392-397). -/
theorem C2_counterexample :
    AiModels.predict untrained_init S_normal = Except.error "NotFittedError" := rfl

/-- C2 (amended): `predict` returns `(False, 0.0)` without raising only
when a sklearn object is missing altogether (`model is None or scaler is
None`, the state left by a successful ONNX load) and the ONNX branch is
not taken or itself raises; in the fresh untrained state the unfitted
objects make `predict` raise instead. -/
theorem C2_amended_none_guard (st : DetectorState) (data : Snapshot)
    (features : List ℚ)
    (hf : AiModels.extract_features data = Except.ok features)
    (hms : st.model = none ∨ st.scaler = none)
    (honnx : ∀ sm ss, st.use_onnx = true → st.onnx_model = some sm →
      st.onnx_scaler = some ss →
      ∃ e, AiModels.onnx_predict sm ss features = Except.error e) :
    AiModels.predict st data = Except.ok (false, 0) := by
  have hsk : AiModels.sklearn_predict st features = Except.ok (false, 0) := by
    unfold AiModels.sklearn_predict
    rcases hms with h | h
    · rw [h]
    · rw [h]
      cases st.model <;> rfl
  unfold AiModels.predict
  rw [hf]
  simp only [bind, Except.bind]
  cases hU : st.use_onnx with
  | false => exact hsk
  | true =>
    cases hM : st.onnx_model with
    | none => exact hsk
    | some sm =>
      cases hS : st.onnx_scaler with
      | none => exact hsk
      | some ss =>
        obtain ⟨e, he⟩ := honnx sm ss hU hM hS
        dsimp only
        rw [he]
        exact hsk

/-- C2 (witness): the amended statement evaluated in the state with no
sklearn objects and the ONNX branch disabled. -/
theorem C2_amended_witness :
    AiModels.predict no_sklearn_state S_normal = Except.ok (false, 0) := by
  refine C2_amended_none_guard no_sklearn_state S_normal
    [45, 30, 50, 60, 100, 200] rfl (Or.inl rfl) ?_
  intro sm ss hu hm hs
  exact absurd hu (by simp [no_sklearn_state])

/-- C7 (counterexample): `ai_models.AnomalyDetector.train` on a 5-sample
list — below the documented minimum of 10 — is not a no-op: it fits the
scaler (and model) and persists the pickle, because the guard only rejects
an empty list. -/
theorem C7_counterexample :
    trainOutcome (AiModels.train untrained_init five_samples) = some (true, true) ∧
    untrained_init.scaler.map SkScaler.fitted = some false ∧
    five_samples.length < 10 := by
  exact ⟨rfl, rfl, by decide⟩

/-- C7 (amended): only the `local_ai_model` variant enforces the minimum:
its `train` on any list of fewer than 10 samples returns with the state
unchanged and nothing persisted, before even touching the samples. -/
theorem C7_amended_local_noop (st : LocalAiModel.State) (td : List Snapshot)
    (h : td.length < 10) :
    LocalAiModel.train st td = Except.ok (st, false) := by
  unfold LocalAiModel.train
  rw [if_pos h]

/-- C7 (witness): the amended statement evaluated on the fresh local
detector and the 5-sample list. -/
theorem C7_amended_witness :
    LocalAiModel.train local_fresh five_samples = Except.ok (local_fresh, false) :=
  C7_amended_local_noop local_fresh five_samples (by decide)

/-- C8 (counterexample): when the ONNX export succeeds end to end
(`onnx_fail = none`), the pickle files have nevertheless been written — and
written first — so the portable backend is not reserved for export
failure. -/
theorem C8_counterexample :
    train_and_save_models none =
      [PersistEvent.pickleModel, PersistEvent.pickleScaler,
       PersistEvent.onnxScaler, PersistEvent.onnxModel] ∧
    PersistEvent.pickleModel ∈ train_and_save_models none ∧
    (none : Option Nat).isSome = false := by
  exact ⟨rfl, by decide, rfl⟩

/-- C8 (amended): `train_and_save_models` writes the two pickle artifacts
first, unconditionally, whatever the fate of the subsequent ONNX export;
the export is attempted afterwards and its failure is caught (pickle-only
fallback). -/
theorem C8_amended_pickle_first (onnx_fail : Option Nat) :
    (train_and_save_models onnx_fail).take 2 =
      [PersistEvent.pickleModel, PersistEvent.pickleScaler] ∧
    (train_and_save_models onnx_fail).head? = some PersistEvent.pickleModel :=
  ⟨rfl, rfl⟩

/-- C10: under the ONNX branch, any successful inference whose label is -1
or 1 is classified anomalous (`prediction == -1 or prediction == 1`); as
the isolation forest emits only these two labels, every successful ONNX
prediction reports an anomaly, with the negated raw score. -/
theorem C10_onnx_label_always_anomalous (st : DetectorState) (data : Snapshot)
    (features fs : List ℚ) (label : Int) (score : ℚ)
    (sm : OnnxModelSession) (ss : OnnxScalerSession)
    (hf : AiModels.extract_features data = Except.ok features)
    (hU : st.use_onnx = true) (hM : st.onnx_model = some sm)
    (hS : st.onnx_scaler = some ss)
    (hrs : ss.run features = Except.ok fs)
    (hrm : sm.run fs = Except.ok (label, score))
    (hl : label = -1 ∨ label = 1) :
    AiModels.predict st data = Except.ok (true, -score) := by
  have honnx : AiModels.onnx_predict sm ss features = Except.ok (true, -score) := by
    unfold AiModels.onnx_predict
    rw [hrs]
    simp only [bind, Except.bind]
    rw [hrm]
    rcases hl with h | h <;> subst h <;> simp [pure, Except.pure]
  unfold AiModels.predict
  rw [hf]
  simp only [bind, Except.bind]
  rw [hU, hM, hS]
  dsimp only
  rw [honnx]

/-- C10 (witness): the theorem evaluated in a state with both ONNX
sessions loaded, the model answering label 1 with raw score 5. -/
theorem C10_witness :
    AiModels.predict onnx_state S_normal = Except.ok (true, -5) :=
  C10_onnx_label_always_anomalous onnx_state S_normal
    [45, 30, 50, 60, 100, 200] [45, 30, 50, 60, 100, 200] 1 5
    onnx_const_model onnx_id_scaler rfl rfl rfl rfl rfl rfl (Or.inr rfl)

/-- C4: in every cycle the combined verdict equals
`is_threshold_anomaly or is_ml_anomaly`; the anomaly counter, the QuestDB
record and the payload `local_analysis` block all carry exactly this flag;
and the flag is invariant under any change of the remote analysis inputs,
which are only merged into the payload. -/
theorem C4_combined_or (env : CycleEnv) :
    (collect_and_process env).is_anomaly
        = (env.threshold_result.1 || (ml_verdict env).1) ∧
    (collect_and_process env).stored_is_anomaly
        = (collect_and_process env).is_anomaly ∧
    (collect_and_process env).anomalies_detected_delta
        = (if (collect_and_process env).is_anomaly then 1 else 0) ∧
    (∀ u, (collect_and_process env).upload = some u →
        u.local_analysis.is_anomaly = (collect_and_process env).is_anomaly ∧
        u.local_analysis.ml_score = (ml_verdict env).2 ∧
        u.local_analysis.threshold_violations = env.threshold_result.2) ∧
    (∀ ca b₁ b₂, (collect_and_process
        { env with cloud_analysis := ca, cloud_ai_enabled := b₁,
                   cloud_service_present := b₂ }).is_anomaly
        = (collect_and_process env).is_anomaly) := by
  refine ⟨rfl, rfl, rfl, ?_, ?_⟩
  · intro u hu
    unfold collect_and_process at hu
    dsimp only at hu
    split at hu
    · injection hu with hu'
      subst hu'
      exact ⟨rfl, rfl, rfl⟩
    · exact absurd hu (by simp)
  · intro ca b₁ b₂
    rfl

/-- C4 (witness): the statement evaluated in a cycle whose threshold
verdict is positive, ML verdict negative and remote analysis present. -/
theorem C4_witness :
    (collect_and_process env0).is_anomaly
        = (env0.threshold_result.1 || (ml_verdict env0).1) ∧
    ({ local_analysis := { is_anomaly := true, ml_score := 2,
                           threshold_violations := ["CPU temperature: 90"] },
       cloud_analysis := some { available := true, is_anomaly := false } }
        : UploadData).local_analysis.is_anomaly
      = (collect_and_process env0).is_anomaly := by
  exact ⟨(C4_combined_or env0).1, ((C4_combined_or env0).2.2.2.1 _ rfl).1⟩

/-- C5: over any sequence of upload calls from a queue within capacity the
queue never exceeds the capacity of 100, and a call made while
disconnected with the queue at capacity leaves the queue exactly as it
was — nothing overwritten or evicted — sends nothing and returns
`False`. -/
theorem C5_bounded_queue {α : Type} (q : List α) (calls : List (UploadCall α))
    (c : UploadCall α)
    (hlen : q.length ≤ max_queue_size)
    (hdisc : c.is_connected = false)
    (hfull : max_queue_size ≤ q.length) :
    (run_uploads q calls).length ≤ max_queue_size ∧
    upload_sensor_data c.is_connected c.send_ok c.flush_conn c.flush_send
        q c.data
      = (q, [], false) := by
  constructor
  · clear hdisc hfull
    revert hlen
    induction calls generalizing q with
    | nil =>
      intro hlen
      simpa [run_uploads] using hlen
    | cons c' cs ih =>
      intro hlen
      have h1 := apply_upload_length q c' hlen
      simpa [run_uploads, List.foldl] using ih (apply_upload q c') h1
  · have hnl : ¬ q.length < max_queue_size := by omega
    unfold upload_sensor_data
    simp [hdisc, hnl]

/-- C5 (witness): a full queue of 100 entries, one disconnected call. -/
theorem C5_witness :
    (run_uploads (List.replicate 100 (0 : ℕ))
        [{ is_connected := false, send_ok := false, flush_conn := allOn,
           flush_send := allOn, data := 7 }]).length ≤ max_queue_size ∧
    upload_sensor_data false false allOn allOn (List.replicate 100 (0 : ℕ)) 7
      = (List.replicate 100 0, [], false) :=
  C5_bounded_queue (List.replicate 100 (0 : ℕ))
    [{ is_connected := false, send_ok := false, flush_conn := allOn,
       flush_send := allOn, data := 7 }]
    { is_connected := false, send_ok := false, flush_conn := allOn,
      flush_send := allOn, data := 7 }
    (by simp [max_queue_size]) rfl (by simp [max_queue_size])

/-- C6: a connected upload whose immediate send succeeds on a non-empty
queue drains it in FIFO enqueue order: with the transport accepting every
send, exactly the connectivity-prefix of the queue is sent, each entry
once and in order, one pacing sleep per send; connectivity holds at every
drained position, is false at the stopping position when entries remain,
and the remaining suffix stays queued. -/
theorem C6_upload_flush_fifo {α : Type} (conn send : Nat → Bool) (q : List α)
    (d : α) (hq : q ≠ []) (hsend : ∀ j, send j = true) :
    upload_sensor_data true true conn send q d =
      (q.drop (conn_prefix_len conn 0 q),
       (q.take (conn_prefix_len conn 0 q)).map (fun p => (p, true)),
       true) ∧
    (∀ j, j < conn_prefix_len conn 0 q → conn j = true) ∧
    (conn_prefix_len conn 0 q < q.length →
      conn (conn_prefix_len conn 0 q) = false) ∧
    (flush_queue conn send 0 q).2.2 = conn_prefix_len conn 0 q := by
  have hfl := flush_queue_spec conn send 0 q hsend
  refine ⟨?_, ?_, ?_, ?_⟩
  · have hne : q.isEmpty = false := by
      cases q with
      | nil => exact absurd rfl hq
      | cons a t => rfl
    unfold upload_sensor_data
    simp only [hne, Bool.not_false, Bool.and_true, if_true]
    rw [hfl]
    simp
  · intro j hj
    have h := conn_prefix_len_holds conn 0 q j hj
    simpa using h
  · intro hlt
    have h := conn_prefix_len_stop conn 0 q hlt
    simpa using h
  · rw [hfl]

/-- C6 (witness): spec Scenario 3 — five queued payloads, transport
connected throughout — all five delivered once, in original order. -/
theorem C6_witness :
    upload_sensor_data true true allOn allOn [1, 2, 3, 4, 5] (6 : ℕ) =
      ([], [(1, true), (2, true), (3, true), (4, true), (5, true)], true) := by
  have h := (C6_upload_flush_fifo allOn allOn [1, 2, 3, 4, 5] 6
    (by decide) (fun _ => rfl)).1
  exact h.trans (by rfl)
